import Mathlib

set_option autoImplicit false

/-!
Shallow embedding of the `rs-imgest` image-ingestion core: the error taxonomy
(`src/error.rs`), the constrained PNG decoder adapter (`src/png_decoder.rs`)
and the format dispatcher (`src/lib.rs`).  The underlying `png` and `image`
library collaborators are modelled at their interface boundary: results they
would report for a given byte stream are supplied as oracle values, and the
adapter code that consumes them is translated from the source.  Rust panics
(`assert!`, `unreachable!`, explicit `panic!`) are modelled by `Option`, with
`none` standing for a panic.
-/

/-- Model of `std::io::Error`: an opaque token carrying a message. -/
structure IoErr where
  msg : String
deriving DecidableEq

/-- `png::ColorType` (the bitstream library's color-type field). -/
inductive PngColorType where
  | Grayscale
  | Rgb
  | Indexed
  | GrayscaleAlpha
  | Rgba
deriving DecidableEq, Fintype

/-- `png::BitDepth`. -/
inductive PngBitDepth where
  | One
  | Two
  | Four
  | Eight
  | Sixteen
deriving DecidableEq, Fintype

/-- The numeric value of a `png::BitDepth` (`bits as u8` in Rust: the enum is
`#[repr(u8)]` with discriminants 1, 2, 4, 8, 16). -/
def PngBitDepth.val : PngBitDepth → Nat
  | .One => 1
  | .Two => 2
  | .Four => 4
  | .Eight => 8
  | .Sixteen => 16

/-- `png::DecodingError`.  `Format` and `Parameter` payloads are modelled as
their message strings. -/
inductive PngDecodingError where
  | IoError (e : IoErr)
  | Format (f : String)
  | Parameter (p : String)
  | LimitsExceeded
deriving DecidableEq

/-- Model of the `Display` rendering of a `png::DecodingError` (used where the
source calls `err.to_string()`). -/
def PngDecodingError.message : PngDecodingError → String
  | .IoError e => e.msg
  | .Format f => f
  | .Parameter p => p
  | .LimitsExceeded => "limits exceeded"

/-- `image::ColorType`, restricted as in the source to the variants the PNG
adapter can produce. -/
inductive ColorType where
  | L8
  | L16
  | La8
  | La16
  | Rgb8
  | Rgb16
  | Rgba8
  | Rgba16
deriving DecidableEq, Fintype

/-- `image::ExtendedColorType`: the variants used by `png_decoder.rs` to tag
unsupported color-type/bit-depth pairs. -/
inductive ExtendedColorType where
  | L1
  | La1
  | Rgb1
  | Rgba1
  | L2
  | La2
  | Rgb2
  | Rgba2
  | L4
  | La4
  | Rgb4
  | Rgba4
  | Unknown (bits : Nat)
deriving DecidableEq

/-- `image::ImageFormat`, restricted to the container formats the dispatcher
model distinguishes. -/
inductive ImageFormat where
  | Png
  | Jpeg
  | Gif
  | WebP
  | Tiff
  | Bmp
deriving DecidableEq, Fintype

/-- `image::error::ImageFormatHint`. -/
inductive ImageFormatHint where
  | Exact (f : ImageFormat)
  | Unknown
deriving DecidableEq

/-- `image::error::UnsupportedErrorKind`. -/
inductive UnsupportedErrorKind where
  | Color (ect : ExtendedColorType)
  | Format (hint : ImageFormatHint)
  | GenericFeature (s : String)
deriving DecidableEq

/-- `image::error::UnsupportedError` (format hint plus kind, as built by
`UnsupportedError::from_format_and_kind`). -/
structure UnsupportedError where
  format : ImageFormatHint
  kind : UnsupportedErrorKind
deriving DecidableEq

/-- `image::error::DecodingError`: a format hint plus the boxed underlying
error.  `cause = some e` records a `png::DecodingError` wrapped by this crate;
`cause = none` abstracts an opaque cause from the external library. -/
structure DecodingErr where
  format : ImageFormatHint
  cause : Option PngDecodingError
deriving DecidableEq

/-- `image::error::ParameterErrorKind`. -/
inductive ParameterErrorKind where
  | Generic (s : String)
  | DimensionMismatch
  | FailedAlready
deriving DecidableEq

/-- `image::error::ParameterError`. -/
structure ParameterErr where
  kind : ParameterErrorKind
deriving DecidableEq

/-- `image::error::LimitErrorKind`. -/
inductive LimitErrorKind where
  | DimensionError
  | InsufficientMemory
deriving DecidableEq

/-- `image::error::LimitError`. -/
structure LimitErr where
  kind : LimitErrorKind
deriving DecidableEq

/-- `image::ImageError`.  The `Encoding` payload is modelled as its message. -/
inductive ImageError where
  | Decoding (e : DecodingErr)
  | Encoding (e : String)
  | Parameter (e : ParameterErr)
  | Limits (e : LimitErr)
  | Unsupported (e : UnsupportedError)
  | IoError (e : IoErr)
deriving DecidableEq

/-- The crate's own error taxonomy, `error.rs` lines 3-13. -/
inductive Error where
  | UnsupportedFormat
  | IoError (e : IoErr)
  | Animated
  | PngDecodingError (e : PngDecodingError)
  | TooBig
  | DecodingError (e : DecodingErr)
  | Parameter (e : ParameterErr)
  | Limits (e : LimitErr)
  | Unsupported (e : UnsupportedError)
deriving DecidableEq

/-- `impl From<png::DecodingError> for Error` (`error.rs` lines 21-28): the
I/O variant is unwrapped into `Error::IoError`, everything else is kept
whole inside `Error::PngDecodingError`. -/
def errorFromPngCrate : PngDecodingError → Error
  | .IoError io => .IoError io
  | e => .PngDecodingError e

/-- `impl From<image::ImageError> for Error` (`error.rs` lines 30-41).
`none` models the `panic!` on the `Encoding` variant. -/
def errorFromImageCrate : ImageError → Option Error
  | .IoError io => some (.IoError io)
  | .Decoding e => some (.DecodingError e)
  | .Parameter e => some (.Parameter e)
  | .Limits e => some (.Limits e)
  | .Unsupported e => some (.Unsupported e)
  | .Encoding _ => none

/-- `error_from_png` (`png_decoder.rs` lines 208-215): translate a
`png::DecodingError` into an `image::ImageError`. -/
def error_from_png : PngDecodingError → ImageError
  | .IoError e => .IoError e
  | .Format f => .Decoding ⟨.Exact .Png, some (.Format f)⟩
  | .Parameter p => .Parameter ⟨.Generic (PngDecodingError.message (.Parameter p))⟩
  | .LimitsExceeded => .Limits ⟨.InsufficientMemory⟩

/-- `unsupported_color` (`png_decoder.rs` lines 200-205). -/
def unsupported_color (ect : ExtendedColorType) : Error :=
  .Unsupported ⟨.Exact .Png, .Color ect⟩

/-- The color-type/bit-depth classification match of
`PngDecoder::with_limits` (`png_decoder.rs` lines 45-71). -/
def classify_color : PngColorType → PngBitDepth → Except Error ColorType
  | .Grayscale, .Eight => .ok .L8
  | .Grayscale, .Sixteen => .ok .L16
  | .GrayscaleAlpha, .Eight => .ok .La8
  | .GrayscaleAlpha, .Sixteen => .ok .La16
  | .Rgb, .Eight => .ok .Rgb8
  | .Rgb, .Sixteen => .ok .Rgb16
  | .Rgba, .Eight => .ok .Rgba8
  | .Rgba, .Sixteen => .ok .Rgba16
  | .Grayscale, .One => .error (unsupported_color .L1)
  | .GrayscaleAlpha, .One => .error (unsupported_color .La1)
  | .Rgb, .One => .error (unsupported_color .Rgb1)
  | .Rgba, .One => .error (unsupported_color .Rgba1)
  | .Grayscale, .Two => .error (unsupported_color .L2)
  | .GrayscaleAlpha, .Two => .error (unsupported_color .La2)
  | .Rgb, .Two => .error (unsupported_color .Rgb2)
  | .Rgba, .Two => .error (unsupported_color .Rgba2)
  | .Grayscale, .Four => .error (unsupported_color .L4)
  | .GrayscaleAlpha, .Four => .error (unsupported_color .La4)
  | .Rgb, .Four => .error (unsupported_color .Rgb4)
  | .Rgba, .Four => .error (unsupported_color .Rgba4)
  | .Indexed, bits => .error (unsupported_color (.Unknown bits.val))

/-- `image::ColorType::bytes_per_pixel`. -/
def ColorType.bytes_per_pixel : ColorType → Nat
  | .L8 => 1
  | .L16 => 2
  | .La8 => 2
  | .La16 => 4
  | .Rgb8 => 3
  | .Rgb16 => 6
  | .Rgba8 => 4
  | .Rgba16 => 8

/-- `image::ColorType::channel_count`. -/
def ColorType.channel_count : ColorType → Nat
  | .L8 => 1
  | .L16 => 1
  | .La8 => 2
  | .La16 => 2
  | .Rgb8 => 3
  | .Rgb16 => 3
  | .Rgba8 => 4
  | .Rgba16 => 4

instance {α β : Type} [DecidableEq α] [DecidableEq β] : DecidableEq (Except α β) := fun x y =>
  match x, y with
  | .ok a, .ok b =>
    if h : a = b then .isTrue (by rw [h]) else .isFalse (fun hh => by cases hh; exact h rfl)
  | .error a, .error b =>
    if h : a = b then .isTrue (by rw [h]) else .isFalse (fun hh => by cases hh; exact h rfl)
  | .ok _, .error _ => .isFalse (fun hh => by cases hh)
  | .error _, .ok _ => .isFalse (fun hh => by cases hh)

/-- `image::Limits` (maximum width, height, and single allocation). -/
structure Limits where
  max_image_width : Option Nat
  max_image_height : Option Nat
  max_alloc : Option Nat
deriving DecidableEq

/-- `image::Limits::no_limits()`: all ceilings disabled. -/
def Limits.no_limits : Limits := ⟨none, none, none⟩

/-- `image::Limits::check_support` with the default `LimitSupport`: the default
support set covers all three limit fields, so this always succeeds. -/
def Limits.check_support (_l : Limits) : Except ImageError Unit := .ok ()

/-- `image::Limits::check_dimensions`: a declared width or height above the
corresponding ceiling is a `DimensionError` limit error. -/
def Limits.check_dimensions (l : Limits) (width height : Nat) : Except ImageError Unit :=
  if (match l.max_image_width with | some mw => decide (mw < width) | none => false) then
    .error (.Limits ⟨.DimensionError⟩)
  else if (match l.max_image_height with | some mh => decide (mh < height) | none => false) then
    .error (.Limits ⟨.DimensionError⟩)
  else
    .ok ()

/-- A `png` compressed Latin-1 textual chunk (`ZTXtChunk`): its keyword, plus
the oracle outcome of `decompress_text()` followed by `get_text()`. -/
structure ZTXtChunk where
  keyword : String
  decompressed : Except PngDecodingError String
deriving DecidableEq

/-- A `png` uncompressed Latin-1 textual chunk (`TEXtChunk`). -/
structure TEXtChunk where
  keyword : String
  text : String
deriving DecidableEq

/-- The PNG header information (`png::Info`) as the bitstream collaborator
reports it: dimensions, the animation flag, and the textual-chunk lists. -/
structure HeaderInfo where
  width : Nat
  height : Nat
  animated : Bool
  compressed_latin1_text : List ZTXtChunk
  uncompressed_latin1_text : List TEXtChunk
deriving DecidableEq

/-- Oracle for the PNG bitstream collaborator on one byte stream: what the
`png` crate reports at each interface call.  `header` is `read_header_info()`,
`read_info` the subsequent `read_info()`, `output_color_type` the reader's
resolved pair under the `EXPAND` transformation, and `frame` either the bytes
`next_frame` writes into the destination buffer or its error. -/
structure PngStream where
  header : Except PngDecodingError HeaderInfo
  read_info : Except PngDecodingError Unit
  output_color_type : PngColorType × PngBitDepth
  frame : Except PngDecodingError (List Nat)
deriving DecidableEq

/-- The constructed `PngDecoder` (`png_decoder.rs` lines 15-20); the reader is
modelled by its header info plus the pending frame oracle. -/
structure PngDecoder where
  color_type : ColorType
  is_16bit : Bool
  info : HeaderInfo
  frame : Except PngDecodingError (List Nat)
  limits : Limits
deriving DecidableEq

/-- `PngDecoder::with_limits` (`png_decoder.rs` lines 29-80).  `none` models a
panic; underlying errors pass through the crate's `From` impls as `?` does. -/
def PngDecoder.with_limits (s : PngStream) (limits : Limits) :
    Option (Except Error PngDecoder) :=
  match limits.check_support with
  | .error e => (errorFromImageCrate e).map Except.error
  | .ok _ =>
  match s.header with
  | .error e => some (.error (errorFromPngCrate e))
  | .ok info =>
  match limits.check_dimensions info.width info.height with
  | .error e => (errorFromImageCrate e).map Except.error
  | .ok _ =>
  match s.read_info with
  | .error e => some (.error (errorFromPngCrate e))
  | .ok _ =>
  match classify_color s.output_color_type.1 s.output_color_type.2 with
  | .error e => some (.error e)
  | .ok color_type =>
    some (.ok { color_type := color_type,
                is_16bit := s.output_color_type.2 == .Sixteen,
                info := info, frame := s.frame, limits := limits })

/-- `PngDecoder::new` (`png_decoder.rs` lines 25-27). -/
def PngDecoder.new (s : PngStream) : Option (Except Error PngDecoder) :=
  PngDecoder.with_limits s Limits.no_limits

/-- `PngDecoder::is_animated` (`png_decoder.rs` lines 100-102): a boolean
derived from the header info. -/
def PngDecoder.is_animated (d : PngDecoder) : Bool := d.info.animated

/-- `ImageDecoder::total_bytes`: `width * height * bytes_per_pixel`. -/
def PngDecoder.total_bytes (d : PngDecoder) : Nat :=
  d.info.width * d.info.height * d.color_type.bytes_per_pixel

/-- `PngDecoder::set_limits` (`png_decoder.rs` lines 188-196): re-validate the
already-known dimensions; only on success is the stored limit replaced. -/
def PngDecoder.set_limits (d : PngDecoder) (limits : Limits) :
    Except ImageError PngDecoder :=
  match limits.check_support with
  | .error e => .error e
  | .ok _ =>
  match limits.check_dimensions d.info.width d.info.height with
  | .error e => .error e
  | .ok _ => .ok { d with limits := limits }

/-- Whether `pat` occurs as a contiguous infix of the character list. -/
def listContainsSub (pat : List Char) : List Char → Bool
  | [] => pat.isEmpty
  | a :: rest => pat.isPrefixOf (a :: rest) || listContainsSub pat rest

/-- Substring containment, modelling Rust `str::contains`. -/
def strContains (s pat : String) : Bool := listContainsSub pat.toList s.toList

/-- `IPTC_KEYS` (`png_decoder.rs` line 12). -/
def IPTC_KEYS : List String := ["Raw profile type iptc", "Raw profile type 8bim"]

/-- The chunk-matching predicate of `iptc_metadata`:
`IPTC_KEYS.iter().any(|key| keyword.contains(key))`. -/
def iptcKeyMatch (keyword : String) : Bool :=
  IPTC_KEYS.any (fun key => strContains keyword key)

/-- `PngDecoder::iptc_metadata` (`png_decoder.rs` lines 136-160).  The Rust
code returns the matched text's bytes; the model returns the text itself. -/
def PngDecoder.iptc_metadata (d : PngDecoder) : Except ImageError (Option String) :=
  match d.info.compressed_latin1_text.find? (fun chunk => iptcKeyMatch chunk.keyword) with
  | some chunk =>
    (match chunk.decompressed with
     | .error e => .error (error_from_png e)
     | .ok text => .ok (some text))
  | none =>
  match d.info.uncompressed_latin1_text.find? (fun chunk => iptcKeyMatch chunk.keyword) with
  | some chunk => .ok (some chunk.text)
  | none => .ok none

/-- Host byte order; the endianness normalization must be correct for either. -/
inductive Endian where
  | little
  | big
deriving DecidableEq

/-- `BigEndian::read_u16` on two bytes. -/
def readBE16 (a b : Nat) : Nat := a * 256 + b

/-- `NativeEndian::write_u16`: the two bytes written for a 16-bit value. -/
def writeNE16 : Endian → Nat → Nat × Nat
  | .little, v => (v % 256, v / 256 % 256)
  | .big, v => (v / 256 % 256, v % 256)

/-- Reading an aligned 2-byte sample of the buffer in native order. -/
def readNE16 : Endian → Nat → Nat → Nat
  | .little, a, b => b * 256 + a
  | .big, a, b => a * 256 + b

/-- The `chunks_exact_mut(2)` loop of `read_image`: each aligned 2-byte chunk
is read big-endian and rewritten native-endian; a trailing odd byte, not
covered by `chunks_exact_mut`, is left untouched. -/
def swapToNative (e : Endian) : List Nat → List Nat
  | a :: b :: rest =>
    ((writeNE16 e (readBE16 a b)).1) :: ((writeNE16 e (readBE16 a b)).2) :: swapToNative e rest
  | l => l

/-- `ImageDecoder::read_image` for `PngDecoder` (`png_decoder.rs` lines
162-182) on a host of byte order `e`.  `none` models a panic (the entry
`assert_eq!` or the `unreachable!` arm); on success the result is the final
contents of the caller's destination buffer. -/
def PngDecoder.read_image (e : Endian) (d : PngDecoder) (buf : List Nat) :
    Option (Except ImageError (List Nat)) :=
  if buf.length = d.total_bytes then
    match d.frame with
    | .error err => some (.error (error_from_png err))
    | .ok frameBytes =>
      let bpc := d.color_type.bytes_per_pixel / d.color_type.channel_count
      if bpc = 1 then some (.ok frameBytes)
      else if bpc = 2 then some (.ok (swapToNative e frameBytes))
      else none
  else
    none

/-- `image::DynamicImage`, restricted to the decoded-image content the model
tracks: dimensions, color layout, and the pixel buffer. -/
structure DynamicImage where
  width : Nat
  height : Nat
  color : ColorType
  bytes : List Nat
deriving DecidableEq

/-- `DynamicImage::from_decoder` applied to our `PngDecoder`: the image crate
allocates a buffer of `total_bytes` and calls `read_image` on it. -/
def DynamicImage.from_decoder (e : Endian) (d : PngDecoder) :
    Option (Except ImageError DynamicImage) :=
  match PngDecoder.read_image e d (List.replicate d.total_bytes 0) with
  | none => none
  | some (.error err) => some (.error err)
  | some (.ok bytes) => some (.ok ⟨d.info.width, d.info.height, d.color_type, bytes⟩)

/-- The 8-byte PNG signature. -/
def pngMagic : List Nat := [0x89, 0x50, 0x4E, 0x47, 0x0D, 0x0A, 0x1A, 0x0A]

/-- The JPEG SOI magic bytes. -/
def jpegMagic : List Nat := [0xFF, 0xD8, 0xFF]

/-- The two GIF signatures. -/
def gif89Magic : List Nat := [0x47, 0x49, 0x46, 0x38, 0x39, 0x61]

def gif87Magic : List Nat := [0x47, 0x49, 0x46, 0x38, 0x37, 0x61]

/-- The RIFF container magic and the WEBP tag at offset 8. -/
def riffMagic : List Nat := [0x52, 0x49, 0x46, 0x46]

def webpTag : List Nat := [0x57, 0x45, 0x42, 0x50]

/-- The two TIFF byte-order signatures. -/
def tiffIIMagic : List Nat := [0x49, 0x49, 0x2A, 0x00]

def tiffMMMagic : List Nat := [0x4D, 0x4D, 0x00, 0x2A]

/-- The BMP signature. -/
def bmpMagic : List Nat := [0x42, 0x4D]

/-- Modelled from the spec: the external collaborator `image::guess_format`,
classifying the 16-byte signature window "using standard magic-byte rules for
common containers" (spec §4.1), restricted to the formats in `ImageFormat`;
the `Except` error is its guess failure (unrecognized signature). -/
def guess_format (buf : List Nat) : Except Unit ImageFormat :=
  if pngMagic.isPrefixOf buf then .ok .Png
  else if jpegMagic.isPrefixOf buf then .ok .Jpeg
  else if gif89Magic.isPrefixOf buf then .ok .Gif
  else if gif87Magic.isPrefixOf buf then .ok .Gif
  else if riffMagic.isPrefixOf buf && webpTag.isPrefixOf (buf.drop 8) then .ok .WebP
  else if tiffIIMagic.isPrefixOf buf then .ok .Tiff
  else if tiffMMMagic.isPrefixOf buf then .ok .Tiff
  else if bmpMagic.isPrefixOf buf then .ok .Bmp
  else .error ()

/-- The caller-supplied seekable byte source: its full contents plus the
current stream position. -/
structure ByteSource where
  data : List Nat
  pos : Nat

/-- `read_exact` into the 16-byte signature buffer (`lib.rs` lines 18-19):
yields the bytes read and the advanced source, or an `UnexpectedEof` I/O error
when fewer than 16 bytes remain. -/
def ByteSource.read_exact16 (r : ByteSource) : Except IoErr (List Nat × ByteSource) :=
  if r.pos + 16 ≤ r.data.length then
    .ok ((r.data.drop r.pos).take 16, { r with pos := r.pos + 16 })
  else
    .error ⟨"failed to fill whole buffer"⟩

/-- `Seek::rewind` (`lib.rs` line 20): back to offset 0. -/
def ByteSource.rewind (r : ByteSource) : ByteSource := { r with pos := 0 }

/-- The bytes a decoder handed this source consumes: everything from the
current position on. -/
def ByteSource.rest (r : ByteSource) : List Nat := r.data.drop r.pos

/-- Oracles for the decoding collaborators: what the `png` bitstream library
reports for a byte stream, and what `image::load` returns for a byte stream
and format tag. -/
structure Collaborators where
  pngOf : List Nat → PngStream
  loadOther : ImageFormat → List Nat → Except ImageError DynamicImage

/-- Modelled from the spec: `jpeg_decoder.rs` is declared in `lib.rs` but its
source is not under `src/`; spec §4.1 states every recognized non-PNG format
is "delegate[d] entirely to the external general-purpose decoder
collaborator", so the JPEG branch's decode is modelled as that delegation. -/
def jpegDecode (c : Collaborators) (data : List Nat) : Except ImageError DynamicImage :=
  c.loadOther .Jpeg data

/-- The PNG arm of the dispatcher's match (`lib.rs` lines 26-33): construct
the constrained decoder over the stream, reject animated containers, then
decode one frame through `DynamicImage::from_decoder`. -/
def decode_png_branch (e : Endian) (s : PngStream) :
    Option (Except Error (ImageFormat × DynamicImage)) :=
  match PngDecoder.new s with
  | none => none
  | some (.error err) => some (.error err)
  | some (.ok decoder) =>
    if decoder.is_animated then some (.error .Animated)
    else
      match DynamicImage.from_decoder e decoder with
      | none => none
      | some (.error err) => (errorFromImageCrate err).map Except.error
      | some (.ok img) => some (.ok (.Png, img))

/-- The non-PNG arms of the dispatcher's match (`lib.rs` lines 34-44): wrap
the collaborator's result, pairing the tag with the image and translating the
error through `From<ImageError>`. -/
def decode_other_branch (fmt : ImageFormat) (res : Except ImageError DynamicImage) :
    Option (Except Error (ImageFormat × DynamicImage)) :=
  match res with
  | .error err => (errorFromImageCrate err).map Except.error
  | .ok img => some (.ok (fmt, img))

/-- `load_image_from_reader` (`lib.rs` lines 16-45) on a host of byte order
`e`.  `none` models a panic (reachable only through `From<ImageError>` on an
`Encoding` error). -/
def load_image_from_reader (e : Endian) (c : Collaborators) (r : ByteSource) :
    Option (Except Error (ImageFormat × DynamicImage)) :=
  match r.read_exact16 with
  | .error io => some (.error (.IoError io))
  | .ok (buf, r1) =>
  let r2 := r1.rewind
  match guess_format buf with
  | .error _ => some (.error .UnsupportedFormat)
  | .ok fmt =>
  match fmt with
  | .Png => decode_png_branch e (c.pngOf r2.rest)
  | .Jpeg => decode_other_branch .Jpeg (jpegDecode c r2.rest)
  | other => decode_other_branch other (c.loadOther other r2.rest)

/-- A declared width or height strictly exceeds the corresponding configured
ceiling of the `Limits`. -/
def dimsExceed (l : Limits) (width height : Nat) : Prop :=
  (∃ mw, l.max_image_width = some mw ∧ mw < width) ∨
  (∃ mh, l.max_image_height = some mh ∧ mh < height)

/-- The 16-bit-per-channel members of the supported `ColorType` set. -/
def ColorType.is16BitPerChannel : ColorType → Bool
  | .L16 => true
  | .La16 => true
  | .Rgb16 => true
  | .Rgba16 => true
  | _ => false

/-- The bitstream collaborator never reports `LimitsExceeded` on this stream
(the documented behavior when its byte budget is `usize::MAX`, i.e. when the
adapter was constructed with `Limits::no_limits()`). -/
def noLimitsExceededReported (s : PngStream) : Prop :=
  s.header ≠ .error .LimitsExceeded ∧
  s.read_info ≠ .error .LimitsExceeded ∧
  s.frame ≠ .error .LimitsExceeded

lemma check_dimensions_of_exceed {l : Limits} {w h : Nat} (hex : dimsExceed l w h) :
    l.check_dimensions w h = .error (.Limits ⟨.DimensionError⟩) := by
  rcases hex with ⟨mw, hmw, hlt⟩ | ⟨mh, hmh, hlt⟩
  · simp only [Limits.check_dimensions, hmw]
    simp [hlt]
  · simp only [Limits.check_dimensions, hmh]
    split
    · rfl
    · simp [hlt]

lemma check_dimensions_no_limits (w h : Nat) :
    Limits.no_limits.check_dimensions w h = .ok () := by
  simp [Limits.check_dimensions, Limits.no_limits]

/-- C1: the constructor's classification of the resolved (color-type,
bit-depth) pair is total: the 8 supported pairs map exactly to the
corresponding `ColorType`, indexed color at any depth and any channel type at
depth 1/2/4 fail with an `Unsupported(Color)` error, the classification is
injective (so the error tags the exact pair and nothing is silently
upconverted or dropped), and a classification error makes construction fail
with exactly that error. -/
theorem c1_color_layout_classification :
    (classify_color .Grayscale .Eight = .ok .L8 ∧
     classify_color .GrayscaleAlpha .Eight = .ok .La8 ∧
     classify_color .Rgb .Eight = .ok .Rgb8 ∧
     classify_color .Rgba .Eight = .ok .Rgba8 ∧
     classify_color .Grayscale .Sixteen = .ok .L16 ∧
     classify_color .GrayscaleAlpha .Sixteen = .ok .La16 ∧
     classify_color .Rgb .Sixteen = .ok .Rgb16 ∧
     classify_color .Rgba .Sixteen = .ok .Rgba16) ∧
    (∀ bd, classify_color .Indexed bd = .error (unsupported_color (.Unknown bd.val))) ∧
    (∀ ct bd, bd = .One ∨ bd = .Two ∨ bd = .Four →
      ∃ ect, classify_color ct bd = .error (unsupported_color ect)) ∧
    (∀ ct bd ct' bd', classify_color ct bd = classify_color ct' bd' →
      ct = ct' ∧ bd = bd') ∧
    (∀ s limits info err, s.header = .ok info →
      limits.check_dimensions info.width info.height = .ok () →
      s.read_info = .ok () →
      classify_color s.output_color_type.1 s.output_color_type.2 = .error err →
      PngDecoder.with_limits s limits = some (.error err)) := by
  refine ⟨⟨rfl, rfl, rfl, rfl, rfl, rfl, rfl, rfl⟩, ?_, ?_, ?_, ?_⟩
  · intro bd; cases bd <;> rfl
  · intro ct bd h
    rcases h with h | h | h <;> subst h <;> cases ct <;> exact ⟨_, rfl⟩
  · decide
  · intro s limits info err hhd hdim hri hcls
    simp [PngDecoder.with_limits, Limits.check_support, hhd, hdim, hri, hcls]

/-- C1 witness: an indexed 4-bit stream makes construction fail with the
`Unsupported(Color)` error tagging that pair. -/
theorem c1_color_layout_classification_witness :
    PngDecoder.with_limits
      ⟨.ok ⟨1, 1, false, [], []⟩, .ok (), (.Indexed, .Four), .ok []⟩ Limits.no_limits
      = some (.error (unsupported_color (.Unknown 4))) :=
  c1_color_layout_classification.2.2.2.2
    ⟨.ok ⟨1, 1, false, [], []⟩, .ok (), (.Indexed, .Four), .ok []⟩ Limits.no_limits
    ⟨1, 1, false, [], []⟩ (unsupported_color (.Unknown 4)) rfl
    (check_dimensions_no_limits 1 1) rfl
    (c1_color_layout_classification.2.1 .Four)

/-- C7: the error-translation functions are exhaustive and I/O-preserving:
for `From<png::DecodingError>` the I/O variant becomes `Error::IoError` and
every other variant is kept whole in `Error::PngDecodingError`; for
`From<image::ImageError>` every variant maps to exactly one local kind, and
the `Encoding` variant — impossible in a decode-only pipeline — panics
(modelled as `none`) instead of being returned as a recoverable error. -/
theorem c7_error_translation :
    (∀ io, errorFromPngCrate (.IoError io) = .IoError io) ∧
    (∀ f, errorFromPngCrate (.Format f) = .PngDecodingError (.Format f)) ∧
    (∀ p, errorFromPngCrate (.Parameter p) = .PngDecodingError (.Parameter p)) ∧
    (errorFromPngCrate .LimitsExceeded = .PngDecodingError .LimitsExceeded) ∧
    (∀ io, errorFromImageCrate (.IoError io) = some (.IoError io)) ∧
    (∀ d, errorFromImageCrate (.Decoding d) = some (.DecodingError d)) ∧
    (∀ p, errorFromImageCrate (.Parameter p) = some (.Parameter p)) ∧
    (∀ l, errorFromImageCrate (.Limits l) = some (.Limits l)) ∧
    (∀ u, errorFromImageCrate (.Unsupported u) = some (.Unsupported u)) ∧
    (∀ s, errorFromImageCrate (.Encoding s) = none) :=
  ⟨fun _ => rfl, fun _ => rfl, fun _ => rfl, rfl, fun _ => rfl, fun _ => rfl,
   fun _ => rfl, fun _ => rfl, fun _ => rfl, fun _ => rfl⟩

/-- C8: `read_image` asserts the destination buffer length equals
`width * height * bytes_per_pixel` at entry: any mismatch panics (`none`),
whatever the pending frame holds, i.e. before any frame data is read; and
when the length matches exactly the call never panics. -/
theorem c8_read_image_length_assert :
    (∀ e d buf, buf.length ≠ PngDecoder.total_bytes d →
      PngDecoder.read_image e d buf = none) ∧
    (∀ e d buf, buf.length = PngDecoder.total_bytes d →
      PngDecoder.read_image e d buf ≠ none) := by
  constructor
  · intro e d buf hne
    simp [PngDecoder.read_image, hne]
  · intro e d buf heq
    simp only [PngDecoder.read_image, heq, if_pos rfl]
    match hf : d.frame with
    | .error err => simp
    | .ok frameBytes =>
      match hct : d.color_type with
      | .L8 | .L16 | .La8 | .La16 | .Rgb8 | .Rgb16 | .Rgba8 | .Rgba16 =>
        simp [hct, ColorType.bytes_per_pixel, ColorType.channel_count]

/-- C8 witness: a 1x1 `L8` decoder with an empty buffer panics, and with a
1-byte buffer does not. -/
theorem c8_read_image_length_assert_witness :
    PngDecoder.read_image .little
      ⟨.L8, false, ⟨1, 1, false, [], []⟩, .ok [7], Limits.no_limits⟩ [] = none ∧
    PngDecoder.read_image .little
      ⟨.L8, false, ⟨1, 1, false, [], []⟩, .ok [7], Limits.no_limits⟩ [0] ≠ none :=
  ⟨c8_read_image_length_assert.1 .little
      ⟨.L8, false, ⟨1, 1, false, [], []⟩, .ok [7], Limits.no_limits⟩ [] (by decide),
   c8_read_image_length_assert.2 .little
      ⟨.L8, false, ⟨1, 1, false, [], []⟩, .ok [7], Limits.no_limits⟩ [0] (by decide)⟩

/-- C2: header-declared dimensions are validated against the limits before
the decoder is built (and regardless of every later construction step, i.e.
before any pixel buffer is allocated or the full decode committed): if they
exceed the configured ceilings, construction yields the limit error and no
decoder is created; `set_limits` re-validates the already-known dimensions
against replacement limits and fails immediately the same way. -/
theorem c2_dimension_limits_checked :
    (∀ s limits info, s.header = .ok info →
      dimsExceed limits info.width info.height →
      PngDecoder.with_limits s limits = some (.error (.Limits ⟨.DimensionError⟩))) ∧
    (∀ d limits, dimsExceed limits d.info.width d.info.height →
      PngDecoder.set_limits d limits = .error (.Limits ⟨.DimensionError⟩)) := by
  constructor
  · intro s limits info hhd hex
    simp [PngDecoder.with_limits, Limits.check_support, hhd,
      check_dimensions_of_exceed hex, errorFromImageCrate]
  · intro d limits hex
    simp [PngDecoder.set_limits, Limits.check_support,
      check_dimensions_of_exceed hex]

/-- C2 witness: a header declaring 2x1 against a width ceiling of 1 fails at
construction and at limit replacement with the dimension limit error. -/
theorem c2_dimension_limits_checked_witness :
    PngDecoder.with_limits
      ⟨.ok ⟨2, 1, false, [], []⟩, .ok (), (.Grayscale, .Eight), .ok []⟩
      ⟨some 1, none, none⟩ = some (.error (.Limits ⟨.DimensionError⟩)) ∧
    PngDecoder.set_limits
      ⟨.L8, false, ⟨2, 1, false, [], []⟩, .ok [], Limits.no_limits⟩
      ⟨some 1, none, none⟩ = .error (.Limits ⟨.DimensionError⟩) :=
  ⟨c2_dimension_limits_checked.1
      ⟨.ok ⟨2, 1, false, [], []⟩, .ok (), (.Grayscale, .Eight), .ok []⟩
      ⟨some 1, none, none⟩ ⟨2, 1, false, [], []⟩ rfl
      (Or.inl ⟨1, rfl, by decide⟩),
   c2_dimension_limits_checked.2
      ⟨.L8, false, ⟨2, 1, false, [], []⟩, .ok [], Limits.no_limits⟩
      ⟨some 1, none, none⟩ (Or.inl ⟨1, rfl, by decide⟩)⟩

/-- C9: the IPTC accessor searches the compressed Latin-1 textual chunks
first, with the keyword predicate matching on containment of either legacy
identifier; a compressed hit is preferred over any uncompressed one, and a
decompression failure on it is returned as a decoding error; only when no
compressed chunk matches are the uncompressed chunks searched, the first
match's text being returned; when nothing matches the result is `None`, not
an error. -/
theorem c9_iptc_search_order :
    (∀ k, iptcKeyMatch k =
      (strContains k "Raw profile type iptc" || strContains k "Raw profile type 8bim")) ∧
    (∀ d chunk, d.info.compressed_latin1_text.find? (fun c => iptcKeyMatch c.keyword) = some chunk →
      PngDecoder.iptc_metadata d =
        (match chunk.decompressed with
         | .error err => .error (error_from_png err)
         | .ok text => .ok (some text))) ∧
    (∀ d chunk, d.info.compressed_latin1_text.find? (fun c => iptcKeyMatch c.keyword) = none →
      d.info.uncompressed_latin1_text.find? (fun c => iptcKeyMatch c.keyword) = some chunk →
      PngDecoder.iptc_metadata d = .ok (some chunk.text)) ∧
    (∀ d, d.info.compressed_latin1_text.find? (fun c => iptcKeyMatch c.keyword) = none →
      d.info.uncompressed_latin1_text.find? (fun c => iptcKeyMatch c.keyword) = none →
      PngDecoder.iptc_metadata d = .ok none) := by
  refine ⟨?_, ?_, ?_, ?_⟩
  · intro k
    simp [iptcKeyMatch, IPTC_KEYS, List.any]
  · intro d chunk hc
    simp [PngDecoder.iptc_metadata, hc]
  · intro d chunk hc hu
    simp [PngDecoder.iptc_metadata, hc, hu]
  · intro d hc hu
    simp [PngDecoder.iptc_metadata, hc, hu]

lemma readBE16_lt {a b : Nat} (ha : a < 256) (hb : b < 256) : readBE16 a b < 65536 := by
  simp only [readBE16]
  omega

lemma readNE16_writeNE16 (e : Endian) {v : Nat} (hv : v < 65536) :
    readNE16 e (writeNE16 e v).1 (writeNE16 e v).2 = v := by
  cases e <;> simp only [readNE16, writeNE16] <;> omega

lemma swapToNative_sample (e : Endian) :
    ∀ (l : List Nat), (∀ x ∈ l, x < 256) → ∀ i, 2 * i + 1 < l.length →
      readNE16 e ((swapToNative e l).getD (2 * i) 0) ((swapToNative e l).getD (2 * i + 1) 0) =
        readBE16 (l.getD (2 * i) 0) (l.getD (2 * i + 1) 0)
  | [], _, i, h => by
    simp only [List.length_nil] at h
    omega
  | [a], _, i, h => by
    simp only [List.length_cons, List.length_nil] at h
    omega
  | a :: b :: rest, hlt, 0, h => by
    have ha : a < 256 := hlt a (by simp)
    have hb : b < 256 := hlt b (by simp)
    show readNE16 e ((swapToNative e (a :: b :: rest)).getD 0 0)
        ((swapToNative e (a :: b :: rest)).getD 1 0) =
      readBE16 ((a :: b :: rest).getD 0 0) ((a :: b :: rest).getD 1 0)
    simp only [swapToNative, List.getD_cons_zero, List.getD_cons_succ]
    exact readNE16_writeNE16 e (readBE16_lt ha hb)
  | a :: b :: rest, hlt, i + 1, h => by
    have hr : ∀ x ∈ rest, x < 256 := fun x hx => hlt x (by simp [hx])
    have hlen : 2 * i + 1 < rest.length := by
      simp only [List.length_cons] at h
      omega
    have ih := swapToNative_sample e rest hr i hlen
    have e2 : 2 * (i + 1) = 2 * i + 1 + 1 := by ring
    simp only [swapToNative, e2, List.getD_cons_succ]
    exact ih

/-- C3: on a successful `read_image`, a 16-bit-per-channel layout has every
aligned 2-byte sample byte-swapped in place from the big-endian wire order to
the host's native order — so each native-order read of a sample yields exactly
the big-endian value the wire carried, on either host byte order — while an
8-bit-per-channel layout leaves the frame bytes exactly as read, with no
reordering. -/
theorem c3_endianness_normalization :
    ∀ (e : Endian) (d : PngDecoder) (buf wire : List Nat),
      buf.length = PngDecoder.total_bytes d →
      d.frame = .ok wire →
      (d.color_type.is16BitPerChannel = true →
        PngDecoder.read_image e d buf = some (.ok (swapToNative e wire)) ∧
        ((∀ x ∈ wire, x < 256) → ∀ i, 2 * i + 1 < wire.length →
          readNE16 e ((swapToNative e wire).getD (2 * i) 0)
              ((swapToNative e wire).getD (2 * i + 1) 0) =
            readBE16 (wire.getD (2 * i) 0) (wire.getD (2 * i + 1) 0))) ∧
      (d.color_type.is16BitPerChannel = false →
        PngDecoder.read_image e d buf = some (.ok wire)) := by
  intro e d buf wire hlen hframe
  constructor
  · intro h16
    have hbpc : d.color_type.bytes_per_pixel / d.color_type.channel_count = 2 := by
      revert h16
      cases d.color_type <;>
        simp [ColorType.is16BitPerChannel, ColorType.bytes_per_pixel, ColorType.channel_count]
    constructor
    · simp [PngDecoder.read_image, hlen, hframe, hbpc]
    · intro hbytes i hi
      exact swapToNative_sample e wire hbytes i hi
  · intro h8
    have hbpc : d.color_type.bytes_per_pixel / d.color_type.channel_count = 1 := by
      revert h8
      cases d.color_type <;>
        simp [ColorType.is16BitPerChannel, ColorType.bytes_per_pixel, ColorType.channel_count]
    simp [PngDecoder.read_image, hlen, hframe, hbpc]

/-- C3 witness: a 1x1 `L16` frame carrying the wire sample `0x1234` is
byte-swapped on a little-endian host, and the native-order read of the
swapped sample gives back `0x1234 = readBE16 0x12 0x34`. -/
theorem c3_endianness_normalization_witness :
    PngDecoder.read_image .little
        ⟨.L16, true, ⟨1, 1, false, [], []⟩, .ok [0x12, 0x34], Limits.no_limits⟩ [0, 0] =
      some (.ok (swapToNative .little [0x12, 0x34])) ∧
    readNE16 .little ((swapToNative .little [0x12, 0x34]).getD 0 0)
        ((swapToNative .little [0x12, 0x34]).getD 1 0) = readBE16 0x12 0x34 :=
  ⟨(c3_endianness_normalization .little
      ⟨.L16, true, ⟨1, 1, false, [], []⟩, .ok [0x12, 0x34], Limits.no_limits⟩
      [0, 0] [0x12, 0x34] (by decide) rfl).1 rfl |>.1,
   ((c3_endianness_normalization .little
      ⟨.L16, true, ⟨1, 1, false, [], []⟩, .ok [0x12, 0x34], Limits.no_limits⟩
      [0, 0] [0x12, 0x34] (by decide) rfl).1 rfl).2 (by decide) 0 (by decide)⟩

/-- C4: once the dispatcher classifies a stream as PNG and the constrained
decoder is built, a header reporting an animated container makes the top-level
decode fail with `Animated` — whatever the pending frame data or other stream
content, i.e. before any pixel data is decoded — and the animation query is
just the boolean from the header info. -/
theorem c4_animated_rejected :
    (∀ d : PngDecoder, PngDecoder.is_animated d = d.info.animated) ∧
    (∀ (e : Endian) (c : Collaborators) (data : List Nat) (dec : PngDecoder),
      16 ≤ data.length →
      guess_format (data.take 16) = .ok .Png →
      PngDecoder.new (c.pngOf data) = some (.ok dec) →
      dec.is_animated = true →
      load_image_from_reader e c ⟨data, 0⟩ = some (.error .Animated)) := by
  constructor
  · intro d
    rfl
  · intro e c data dec hlen hfmt hnew hanim
    have hle : 0 + 16 ≤ data.length := by omega
    simp [load_image_from_reader, ByteSource.read_exact16, hle, ByteSource.rewind,
      ByteSource.rest, hfmt, decode_png_branch, hnew, hanim]

/-- C4 witness: a 16-byte stream opening with the PNG signature whose header
reports an animated container is rejected with `Animated`. -/
theorem c4_animated_rejected_witness :
    load_image_from_reader .little
      ⟨fun _ => ⟨.ok ⟨1, 1, true, [], []⟩, .ok (), (.Grayscale, .Eight), .ok [0]⟩,
       fun _ _ => .error (.IoError ⟨"unused"⟩)⟩
      ⟨pngMagic ++ [0, 0, 0, 0, 0, 0, 0, 0], 0⟩ = some (.error .Animated) :=
  c4_animated_rejected.2 .little
    ⟨fun _ => ⟨.ok ⟨1, 1, true, [], []⟩, .ok (), (.Grayscale, .Eight), .ok [0]⟩,
     fun _ _ => .error (.IoError ⟨"unused"⟩)⟩
    (pngMagic ++ [0, 0, 0, 0, 0, 0, 0, 0])
    ⟨.L8, false, ⟨1, 1, true, [], []⟩, .ok [0], Limits.no_limits⟩
    (by decide) (by decide) rfl rfl

/-- C6: a stream classified as any recognized format other than PNG is
delegated entirely to the external general-purpose decoder collaborator
(the JPEG adapter, whose source is absent, is modelled from the spec as that
same delegation), on the full rewound stream; the collaborator's image or
error is returned unchanged — the error only wrapped through the local
taxonomy — paired with the resolved `FormatTag`. -/
theorem c6_non_png_delegation :
    ∀ (e : Endian) (c : Collaborators) (data : List Nat) (fmt : ImageFormat),
      16 ≤ data.length →
      guess_format (data.take 16) = .ok fmt →
      fmt ≠ .Png →
      load_image_from_reader e c ⟨data, 0⟩ =
        (match c.loadOther fmt data with
         | .error err => (errorFromImageCrate err).map Except.error
         | .ok img => some (.ok (fmt, img))) := by
  intro e c data fmt hlen hfmt hne
  have hle : 0 + 16 ≤ data.length := by omega
  cases fmt with
  | Png => exact absurd rfl hne
  | Jpeg =>
    simp only [load_image_from_reader, ByteSource.read_exact16, hle, if_pos,
      List.drop_zero, ByteSource.rewind, ByteSource.rest, hfmt, jpegDecode,
      decode_other_branch]
  | Gif =>
    simp only [load_image_from_reader, ByteSource.read_exact16, hle, if_pos,
      List.drop_zero, ByteSource.rewind, ByteSource.rest, hfmt, decode_other_branch]
  | WebP =>
    simp only [load_image_from_reader, ByteSource.read_exact16, hle, if_pos,
      List.drop_zero, ByteSource.rewind, ByteSource.rest, hfmt, decode_other_branch]
  | Tiff =>
    simp only [load_image_from_reader, ByteSource.read_exact16, hle, if_pos,
      List.drop_zero, ByteSource.rewind, ByteSource.rest, hfmt, decode_other_branch]
  | Bmp =>
    simp only [load_image_from_reader, ByteSource.read_exact16, hle, if_pos,
      List.drop_zero, ByteSource.rewind, ByteSource.rest, hfmt, decode_other_branch]

/-- C6 witness: a GIF89a-signature stream is decoded by the external
collaborator and its image is returned paired with the GIF tag. -/
theorem c6_non_png_delegation_witness :
    load_image_from_reader .little
      ⟨fun _ => ⟨.error .LimitsExceeded, .ok (), (.Grayscale, .Eight), .ok []⟩,
       fun _ _ => .ok ⟨1, 1, .Rgb8, [1, 2, 3]⟩⟩
      ⟨gif89Magic ++ [0, 0, 0, 0, 0, 0, 0, 0, 0, 0], 0⟩ =
      some (.ok (.Gif, ⟨1, 1, .Rgb8, [1, 2, 3]⟩)) :=
  c6_non_png_delegation .little
    ⟨fun _ => ⟨.error .LimitsExceeded, .ok (), (.Grayscale, .Eight), .ok []⟩,
     fun _ _ => .ok ⟨1, 1, .Rgb8, [1, 2, 3]⟩⟩
    (gif89Magic ++ [0, 0, 0, 0, 0, 0, 0, 0, 0, 0]) .Gif
    (by decide) (by decide) (by decide)

lemma check_dimensions_shape (l : Limits) (w h : Nat) :
    l.check_dimensions w h = .ok () ∨
      l.check_dimensions w h = .error (.Limits ⟨.DimensionError⟩) := by
  unfold Limits.check_dimensions
  split
  · right
    rfl
  · split
    · right
      rfl
    · left
      rfl

lemma classify_error_shape {ct bd err} (h : classify_color ct bd = .error err) :
    ∃ ect, err = unsupported_color ect := by
  cases ct <;> cases bd <;> simp [classify_color] at h <;> exact ⟨_, h.symm⟩

lemma errorFromPngCrate_ne (e : PngDecodingError) :
    errorFromPngCrate e ≠ .UnsupportedFormat ∧ errorFromPngCrate e ≠ .TooBig ∧
      (∀ le, errorFromPngCrate e ≠ .Limits le) ∧ errorFromPngCrate e ≠ .Animated := by
  cases e <;> simp [errorFromPngCrate]

lemma with_limits_error_cases {s : PngStream} {limits : Limits} {err : Error}
    (h : PngDecoder.with_limits s limits = some (.error err)) :
    (∃ e2, err = errorFromPngCrate e2) ∨
      (∃ info, s.header = .ok info ∧
        limits.check_dimensions info.width info.height = .error (.Limits ⟨.DimensionError⟩) ∧
        err = .Limits ⟨.DimensionError⟩) ∨
      (∃ ect, err = unsupported_color ect) := by
  unfold PngDecoder.with_limits at h
  simp only [Limits.check_support] at h
  cases hh : s.header with
  | error e =>
    simp only [hh] at h
    simp at h
    exact Or.inl ⟨e, h.symm⟩
  | ok info =>
    simp only [hh] at h
    rcases check_dimensions_shape limits info.width info.height with hd | hd
    · simp only [hd] at h
      cases hr : s.read_info with
      | error e =>
        simp only [hr] at h
        simp at h
        exact Or.inl ⟨e, h.symm⟩
      | ok u =>
        simp only [hr] at h
        cases hc : classify_color s.output_color_type.1 s.output_color_type.2 with
        | error ce =>
          simp only [hc] at h
          simp at h
          rcases classify_error_shape hc with ⟨ect, hect⟩
          exact Or.inr (Or.inr ⟨ect, by rw [← h, hect]⟩)
        | ok ct2 =>
          simp only [hc] at h
          simp at h
    · simp only [hd] at h
      simp [errorFromImageCrate] at h
      exact Or.inr (Or.inl ⟨info, rfl, hd, h.symm⟩)

lemma with_limits_ok_fields {s : PngStream} {limits : Limits} {d : PngDecoder}
    (h : PngDecoder.with_limits s limits = some (.ok d)) :
    d.frame = s.frame ∧ s.header = .ok d.info := by
  unfold PngDecoder.with_limits at h
  simp only [Limits.check_support] at h
  cases hh : s.header with
  | error e =>
    simp [hh] at h
  | ok info =>
    simp only [hh] at h
    rcases check_dimensions_shape limits info.width info.height with hd | hd
    · simp only [hd] at h
      cases hr : s.read_info with
      | error e =>
        simp [hr] at h
      | ok u =>
        simp only [hr] at h
        cases hc : classify_color s.output_color_type.1 s.output_color_type.2 with
        | error ce =>
          simp [hc] at h
        | ok ct2 =>
          simp only [hc] at h
          simp at h
          subst h
          exact ⟨rfl, rfl⟩
    · simp [hd, errorFromImageCrate] at h

lemma read_image_error_cases {e : Endian} {d : PngDecoder} {buf : List Nat} {ierr : ImageError}
    (h : PngDecoder.read_image e d buf = some (.error ierr)) :
    ∃ perr, d.frame = .error perr ∧ ierr = error_from_png perr := by
  unfold PngDecoder.read_image at h
  by_cases hlen : buf.length = PngDecoder.total_bytes d
  · rw [if_pos hlen] at h
    cases hf : d.frame with
    | error perr =>
      simp only [hf] at h
      simp at h
      exact ⟨perr, rfl, h.symm⟩
    | ok frameBytes =>
      simp only [hf] at h
      by_cases h1 : d.color_type.bytes_per_pixel / d.color_type.channel_count = 1
      · simp [h1] at h
      · by_cases h2 : d.color_type.bytes_per_pixel / d.color_type.channel_count = 2
        · simp [h1, h2] at h
        · simp [h1, h2] at h
  · rw [if_neg hlen] at h
    simp at h

lemma from_decoder_error_cases {e : Endian} {d : PngDecoder} {ierr : ImageError}
    (h : DynamicImage.from_decoder e d = some (.error ierr)) :
    ∃ perr, d.frame = .error perr ∧ ierr = error_from_png perr := by
  unfold DynamicImage.from_decoder at h
  cases hr : PngDecoder.read_image e d (List.replicate (PngDecoder.total_bytes d) 0) with
  | none =>
    rw [hr] at h
    simp at h
  | some r =>
    rw [hr] at h
    cases r with
    | error ierr2 =>
      simp at h
      exact h ▸ read_image_error_cases hr
    | ok bytes =>
      simp at h

lemma errorFromImageCrate_ne {ierr : ImageError} {res : Error}
    (h : errorFromImageCrate ierr = some res) :
    res ≠ .UnsupportedFormat ∧ res ≠ .TooBig ∧ res ≠ .Animated ∧
      (∀ le, res = .Limits le → ierr = .Limits le) := by
  cases ierr <;> simp [errorFromImageCrate] at h <;> (subst h; simp)

lemma error_from_png_limits {perr : PngDecodingError} {le : LimitErr}
    (h : error_from_png perr = .Limits le) : perr = .LimitsExceeded := by
  cases perr <;> simp [error_from_png] at h
  rfl

lemma decode_other_branch_error_shape {fmt : ImageFormat} {r : Except ImageError DynamicImage}
    {res : Error} (h : decode_other_branch fmt r = some (.error res)) :
    ∃ ierr, r = .error ierr ∧ errorFromImageCrate ierr = some res := by
  unfold decode_other_branch at h
  cases r with
  | error ierr =>
    cases hmap : errorFromImageCrate ierr with
    | none => simp [hmap] at h
    | some res2 =>
      simp [hmap] at h
      exact ⟨ierr, rfl, by rw [hmap, h]⟩
  | ok img => simp at h

lemma decode_other_branch_ok_tag {fmt fmt2 : ImageFormat} {r : Except ImageError DynamicImage}
    {img : DynamicImage} (h : decode_other_branch fmt r = some (.ok (fmt2, img))) :
    fmt2 = fmt := by
  unfold decode_other_branch at h
  cases r with
  | error ierr =>
    cases hmap : errorFromImageCrate ierr with
    | none => simp [hmap] at h
    | some res2 => simp [hmap] at h
  | ok img2 =>
    simp at h
    exact h.1.symm

lemma decode_png_branch_error_shape {e : Endian} {s : PngStream} {res : Error}
    (h : decode_png_branch e s = some (.error res)) :
    (∃ e2, res = errorFromPngCrate e2) ∨ (∃ ect, res = unsupported_color ect) ∨
      (∃ info, s.header = .ok info ∧
        Limits.no_limits.check_dimensions info.width info.height =
          .error (.Limits ⟨.DimensionError⟩) ∧ res = .Limits ⟨.DimensionError⟩) ∨
      res = .Animated ∨
      (∃ ierr, errorFromImageCrate ierr = some res ∧
        ∃ perr, s.frame = .error perr ∧ ierr = error_from_png perr) := by
  unfold decode_png_branch at h
  cases hn : PngDecoder.new s with
  | none => simp [hn] at h
  | some r =>
    simp only [hn] at h
    cases r with
    | error err =>
      simp at h
      rcases with_limits_error_cases (show PngDecoder.with_limits s Limits.no_limits =
          some (.error err) from hn) with h1 | h1 | h1
      · rcases h1 with ⟨e2, h1⟩
        exact Or.inl ⟨e2, by rw [← h, h1]⟩
      · rcases h1 with ⟨info, hi, hcd, h1⟩
        exact Or.inr (Or.inr (Or.inl ⟨info, hi, hcd, by rw [← h, h1]⟩))
      · rcases h1 with ⟨ect, h1⟩
        exact Or.inr (Or.inl ⟨ect, by rw [← h, h1]⟩)
    | ok dec =>
      by_cases ha : dec.is_animated = true
      · simp [ha] at h
        exact Or.inr (Or.inr (Or.inr (Or.inl h.symm)))
      · simp only [ha, if_false] at h
        cases hf : DynamicImage.from_decoder e dec with
        | none => simp [hf] at h
        | some r2 =>
          simp only [hf] at h
          cases r2 with
          | error ierr =>
            cases hmap : errorFromImageCrate ierr with
            | none => simp [hmap] at h
            | some res2 =>
              simp [hmap] at h
              rcases from_decoder_error_cases hf with ⟨perr, hperr, hierr⟩
              have hfr := (with_limits_ok_fields (show PngDecoder.with_limits s Limits.no_limits =
                  some (.ok dec) from hn)).1
              refine Or.inr (Or.inr (Or.inr (Or.inr ⟨ierr, by rw [hmap, h], perr, ?_, hierr⟩)))
              rw [← hfr]
              exact hperr
          | ok img => simp at h

lemma decode_png_branch_ok_tag {e : Endian} {s : PngStream} {fmt : ImageFormat}
    {img : DynamicImage} (h : decode_png_branch e s = some (.ok (fmt, img))) :
    fmt = .Png := by
  unfold decode_png_branch at h
  cases hn : PngDecoder.new s with
  | none => simp [hn] at h
  | some r =>
    simp only [hn] at h
    cases r with
    | error err => simp at h
    | ok dec =>
      by_cases ha : dec.is_animated = true
      · simp [ha] at h
      · simp only [ha, if_false] at h
        cases hf : DynamicImage.from_decoder e dec with
        | none => simp [hf] at h
        | some r2 =>
          simp only [hf] at h
          cases r2 with
          | error ierr =>
            cases hmap : errorFromImageCrate ierr with
            | none => simp [hmap] at h
            | some res2 => simp [hmap] at h
          | ok img2 =>
            simp at h
            exact h.1.symm

/-- C5: the dispatcher reads a fixed 16-byte signature window (a shorter
stream is an I/O error, not a format error), restores the position to offset
0 before routing — the PNG pipeline consumes the full stream from its start —
classifies the window by the magic-byte rules, fails with `UnsupportedFormat`
exactly when the signature is unrecognized, and any success pairs the
resolved `FormatTag` with the decoded image. -/
theorem c5_signature_dispatch :
    (∀ (e : Endian) (c : Collaborators) (data : List Nat), data.length < 16 →
      load_image_from_reader e c ⟨data, 0⟩ =
        some (.error (.IoError ⟨"failed to fill whole buffer"⟩))) ∧
    (∀ (e : Endian) (c : Collaborators) (data : List Nat), 16 ≤ data.length →
      guess_format (data.take 16) = .error () →
      load_image_from_reader e c ⟨data, 0⟩ = some (.error .UnsupportedFormat)) ∧
    (∀ (e : Endian) (c : Collaborators) (data : List Nat) (fmt : ImageFormat),
      guess_format (data.take 16) = .ok fmt →
      load_image_from_reader e c ⟨data, 0⟩ ≠ some (.error .UnsupportedFormat)) ∧
    (∀ (e : Endian) (c : Collaborators) (data : List Nat) (fmt : ImageFormat)
      (img : DynamicImage),
      load_image_from_reader e c ⟨data, 0⟩ = some (.ok (fmt, img)) →
      guess_format (data.take 16) = .ok fmt) ∧
    (∀ (e : Endian) (c : Collaborators) (data : List Nat), 16 ≤ data.length →
      guess_format (data.take 16) = .ok .Png →
      load_image_from_reader e c ⟨data, 0⟩ = decode_png_branch e (c.pngOf data)) := by
  refine ⟨?_, ?_, ?_, ?_, ?_⟩
  · intro e c data h
    have hle : ¬ (0 + 16 ≤ data.length) := by omega
    simp [load_image_from_reader, ByteSource.read_exact16, hle]
  · intro e c data hlen hfmt
    have hle : 0 + 16 ≤ data.length := by omega
    simp [load_image_from_reader, ByteSource.read_exact16, hle, ByteSource.rewind,
      ByteSource.rest, hfmt]
  · intro e c data fmt hfmt hcontra
    by_cases hle : 0 + 16 ≤ data.length
    · simp only [load_image_from_reader, ByteSource.read_exact16, hle, if_pos,
        List.drop_zero, ByteSource.rewind, ByteSource.rest, hfmt] at hcontra
      cases fmt with
      | Png =>
        rcases decode_png_branch_error_shape hcontra with
          ⟨e2, h1⟩ | ⟨ect, h1⟩ | ⟨info, _, _, h1⟩ | h1 | ⟨ierr, h1, _⟩
        · exact (errorFromPngCrate_ne e2).1 h1.symm
        · simp [unsupported_color] at h1
        · simp at h1
        · simp at h1
        · exact (errorFromImageCrate_ne h1).1 rfl
      | Jpeg =>
        rcases decode_other_branch_error_shape hcontra with ⟨ierr, _, h1⟩
        exact (errorFromImageCrate_ne h1).1 rfl
      | Gif =>
        rcases decode_other_branch_error_shape hcontra with ⟨ierr, _, h1⟩
        exact (errorFromImageCrate_ne h1).1 rfl
      | WebP =>
        rcases decode_other_branch_error_shape hcontra with ⟨ierr, _, h1⟩
        exact (errorFromImageCrate_ne h1).1 rfl
      | Tiff =>
        rcases decode_other_branch_error_shape hcontra with ⟨ierr, _, h1⟩
        exact (errorFromImageCrate_ne h1).1 rfl
      | Bmp =>
        rcases decode_other_branch_error_shape hcontra with ⟨ierr, _, h1⟩
        exact (errorFromImageCrate_ne h1).1 rfl
    · simp [load_image_from_reader, ByteSource.read_exact16, hle] at hcontra
  · intro e c data fmt img h
    by_cases hle : 0 + 16 ≤ data.length
    · simp only [load_image_from_reader, ByteSource.read_exact16, hle, if_pos,
        List.drop_zero, ByteSource.rewind, ByteSource.rest] at h
      cases hg : guess_format (data.take 16) with
      | error u =>
        simp [hg] at h
      | ok fmt2 =>
        simp only [hg] at h
        cases fmt2 with
        | Png => rw [decode_png_branch_ok_tag h]
        | Jpeg => rw [decode_other_branch_ok_tag h]
        | Gif => rw [decode_other_branch_ok_tag h]
        | WebP => rw [decode_other_branch_ok_tag h]
        | Tiff => rw [decode_other_branch_ok_tag h]
        | Bmp => rw [decode_other_branch_ok_tag h]
    · simp [load_image_from_reader, ByteSource.read_exact16, hle] at h
  · intro e c data hlen hfmt
    have hle : 0 + 16 ≤ data.length := by omega
    simp [load_image_from_reader, ByteSource.read_exact16, hle, ByteSource.rewind,
      ByteSource.rest, hfmt]

/-- C5 witness: a 16-byte stream of zero bytes matches no magic rule and is
rejected with `UnsupportedFormat`; a PNG-signature stream is routed to the
PNG pipeline over the full stream. -/
theorem c5_signature_dispatch_witness :
    load_image_from_reader .little
      ⟨fun _ => ⟨.error .LimitsExceeded, .ok (), (.Grayscale, .Eight), .ok []⟩,
       fun _ _ => .error (.IoError ⟨"unused"⟩)⟩
      ⟨[0, 0, 0, 0, 0, 0, 0, 0, 0, 0, 0, 0, 0, 0, 0, 0], 0⟩ =
      some (.error .UnsupportedFormat) ∧
    load_image_from_reader .little
      ⟨fun _ => ⟨.error .LimitsExceeded, .ok (), (.Grayscale, .Eight), .ok []⟩,
       fun _ _ => .error (.IoError ⟨"unused"⟩)⟩
      ⟨pngMagic ++ [0, 0, 0, 0, 0, 0, 0, 0], 0⟩ =
      decode_png_branch .little
        ((fun _ => (⟨.error .LimitsExceeded, .ok (), (.Grayscale, .Eight), .ok []⟩ : PngStream))
          (pngMagic ++ [0, 0, 0, 0, 0, 0, 0, 0])) :=
  ⟨c5_signature_dispatch.2.1 .little
      ⟨fun _ => ⟨.error .LimitsExceeded, .ok (), (.Grayscale, .Eight), .ok []⟩,
       fun _ _ => .error (.IoError ⟨"unused"⟩)⟩
      [0, 0, 0, 0, 0, 0, 0, 0, 0, 0, 0, 0, 0, 0, 0, 0] (by decide) (by decide),
   c5_signature_dispatch.2.2.2.2 .little
      ⟨fun _ => ⟨.error .LimitsExceeded, .ok (), (.Grayscale, .Eight), .ok []⟩,
       fun _ _ => .error (.IoError ⟨"unused"⟩)⟩
      (pngMagic ++ [0, 0, 0, 0, 0, 0, 0, 0]) (by decide) (by decide)⟩

/-- C10: the top-level entry point builds the PNG decoder with
`Limits::no_limits()` — no allocation ceiling and no dimension ceiling — so
construction never yields `TooBig` or a `Limits` error whatever dimensions the
header declares, and the whole PNG path through the dispatcher yields no
`TooBig`/`Limits` error either (given the bitstream collaborator honors the
unlimited byte budget and never reports `LimitsExceeded`); limit enforcement
is reachable only through the limits-taking constructor. -/
theorem c10_entry_point_no_limits :
    (∀ s, PngDecoder.new s = PngDecoder.with_limits s Limits.no_limits) ∧
    (Limits.no_limits.max_image_width = none ∧ Limits.no_limits.max_image_height = none ∧
      Limits.no_limits.max_alloc = none) ∧
    (∀ s err, PngDecoder.with_limits s Limits.no_limits = some (.error err) →
      err ≠ .TooBig ∧ ∀ le, err ≠ .Limits le) ∧
    (∀ (e : Endian) (c : Collaborators) (data : List Nat) (res : Error),
      noLimitsExceededReported (c.pngOf data) →
      guess_format (data.take 16) = .ok .Png →
      load_image_from_reader e c ⟨data, 0⟩ = some (.error res) →
      res ≠ .TooBig ∧ ∀ le, res ≠ .Limits le) := by
  refine ⟨fun s => rfl, ⟨rfl, rfl, rfl⟩, ?_, ?_⟩
  · intro s err h
    rcases with_limits_error_cases h with ⟨e2, h1⟩ | ⟨info, hi, hcd, h1⟩ | ⟨ect, h1⟩
    · subst h1
      exact ⟨(errorFromPngCrate_ne e2).2.1, (errorFromPngCrate_ne e2).2.2.1⟩
    · rw [check_dimensions_no_limits] at hcd
      simp at hcd
    · subst h1
      exact ⟨by simp [unsupported_color], fun le => by simp [unsupported_color]⟩
  · intro e c data res hnl hfmt hload
    by_cases hle : 0 + 16 ≤ data.length
    · simp only [load_image_from_reader, ByteSource.read_exact16, hle, if_pos,
        List.drop_zero, ByteSource.rewind, ByteSource.rest, hfmt] at hload
      rcases decode_png_branch_error_shape hload with
        ⟨e2, h1⟩ | ⟨ect, h1⟩ | ⟨info, hi, hcd, h1⟩ | h1 | ⟨ierr, hmap, perr, hperr, hierr⟩
      · subst h1
        exact ⟨(errorFromPngCrate_ne e2).2.1, (errorFromPngCrate_ne e2).2.2.1⟩
      · subst h1
        exact ⟨by simp [unsupported_color], fun le => by simp [unsupported_color]⟩
      · rw [check_dimensions_no_limits] at hcd
        simp at hcd
      · subst h1
        exact ⟨by simp, fun le => by simp⟩
      · refine ⟨(errorFromImageCrate_ne hmap).2.1, ?_⟩
        intro le hres
        have hlim : ierr = .Limits le := (errorFromImageCrate_ne hmap).2.2.2 le hres
        have hperr2 : perr = .LimitsExceeded := error_from_png_limits (by rw [← hierr]; exact hlim)
        exact hnl.2.2 (hperr2 ▸ hperr)
    · simp [load_image_from_reader, ByteSource.read_exact16, hle] at hload
      rw [← hload]
      exact ⟨by simp, fun le => by simp⟩

/-- C10 witness: under `Limits::no_limits()` via the entry point, a PNG
stream whose header read fails with a bitstream format error surfaces that
error — and it is neither `TooBig` nor a `Limits` error. -/
theorem c10_entry_point_no_limits_witness :
    (Error.PngDecodingError (.Format "bad") ≠ .TooBig ∧
      ∀ le, Error.PngDecodingError (.Format "bad") ≠ .Limits le) :=
  c10_entry_point_no_limits.2.2.2 .little
    ⟨fun _ => ⟨.error (.Format "bad"), .ok (), (.Grayscale, .Eight), .ok []⟩,
     fun _ _ => .error (.IoError ⟨"unused"⟩)⟩
    (pngMagic ++ [0, 0, 0, 0, 0, 0, 0, 0])
    (.PngDecodingError (.Format "bad"))
    (by refine ⟨?_, ?_, ?_⟩ <;> decide) (by decide) (by decide)

/-- C9 witness: a decoder whose only matching chunk is a compressed Latin-1
chunk keyed `"Raw profile type iptc"` returns its decompressed text, and one
with no matching chunk at all returns `None`. -/
theorem c9_iptc_search_order_witness :
    PngDecoder.iptc_metadata
      ⟨.L8, false, ⟨1, 1, false, [⟨"Raw profile type iptc", .ok "IPTCDATA"⟩], []⟩,
       .ok [], Limits.no_limits⟩ = .ok (some "IPTCDATA") ∧
    PngDecoder.iptc_metadata
      ⟨.L8, false, ⟨1, 1, false, [], [⟨"Comment", "hello"⟩]⟩,
       .ok [], Limits.no_limits⟩ = .ok none :=
  ⟨c9_iptc_search_order.2.1
      ⟨.L8, false, ⟨1, 1, false, [⟨"Raw profile type iptc", .ok "IPTCDATA"⟩], []⟩,
       .ok [], Limits.no_limits⟩
      ⟨"Raw profile type iptc", .ok "IPTCDATA"⟩ (by decide),
   c9_iptc_search_order.2.2.2
      ⟨.L8, false, ⟨1, 1, false, [], [⟨"Comment", "hello"⟩]⟩,
       .ok [], Limits.no_limits⟩ (by decide) (by decide)⟩
